import Mathlib

/-!
Verification of the boxpop repository: a tool that resolves a container-image
reference against an OCI registry and downloads the layer blobs of the image to
local files.  The definitions below are shallow embeddings of the Rust source
(src/lib.rs and src/cmd/extract.rs); stateful and IO-bound parts (filesystem,
byte streams, task joining) are modelled by explicit data passed to pure
functions.  Strings are modelled by Lean strings, with the character-level
splitting functions of Rust given list-level implementations.
-/

namespace Boxpop

/-! ## String splitting primitives

Models of Rust `str::split_once` and `str::rsplit_once` over lists of
characters.  `splitOnceList sep l` splits `l` at the first occurrence of `sep`,
returning the parts before and after it (separator excluded), or `none` when
`sep` does not occur.  `rsplitOnceList` splits at the last occurrence.
-/

def splitOnceList (sep : Char) : List Char → Option (List Char × List Char)
  | [] => none
  | c :: rest =>
    if c = sep then some ([], rest)
    else (splitOnceList sep rest).map (fun p => (c :: p.1, p.2))

def rsplitOnceList (sep : Char) (l : List Char) : Option (List Char × List Char) :=
  match splitOnceList sep l.reverse with
  | none => none
  | some p => some (p.2.reverse, p.1.reverse)

/-! ## ImageRef (src/lib.rs) -/

/-- Specifies the version of an ImageRef: either a named tag or a digest.
Embeds enum `ImageRefVersion` of src/lib.rs. -/
inductive ImageRefVersion where
  | Tag (tag : String)
  | Digest (digest : String)
deriving DecidableEq, Repr

/-- A parsed container image reference.  Embeds struct `ImageRef` of
src/lib.rs. -/
structure ImageRef where
  registry : String
  repository : String
  version : ImageRefVersion
deriving DecidableEq, Repr

/-- Embeds `impl FromStr for ImageRef` from src/lib.rs, working on the
character list of the input.  The Rust code is:
first `split_once` on a slash with default registry docker.io, then an
emptiness check on the registry; then `rsplit_once` on a colon (tag branch,
with emptiness checks on repository and tag); else `rsplit_once` on an at sign
(digest branch, with emptiness checks); else the whole remainder is the
repository with version Tag latest.  Errors carry the Rust error messages. -/
def ImageRef.fromStrList (s : List Char) : Except String ImageRef :=
  let p := (splitOnceList '/' s).getD ("docker.io".data, s)
  let registry := p.1
  let s := p.2
  if registry = [] then .error "image registry must be provided"
  else
    match rsplitOnceList ':' s with
    | some (repository, tag) =>
      if repository = [] then .error "image repository must be provided"
      else if tag = [] then .error "image tag must be provided"
      else .ok ⟨String.mk registry, String.mk repository, .Tag (String.mk tag)⟩
    | none =>
      match rsplitOnceList '@' s with
      | some (repository, digest) =>
        if repository = [] then .error "image repository must be provided"
        else if digest = [] then .error "image digest must be provided"
        else .ok ⟨String.mk registry, String.mk repository, .Digest (String.mk digest)⟩
      | none => .ok ⟨String.mk registry, String.mk s, .Tag "latest"⟩

/-- Parsing entry point over Lean strings. -/
def ImageRef.fromStr (s : String) : Except String ImageRef :=
  ImageRef.fromStrList s.data

/-- Embeds `impl Display for ImageRef` from src/lib.rs: it writes only the
repository and version; the registry is not written. -/
def ImageRef.display (r : ImageRef) : String :=
  match r.version with
  | .Tag tag => r.repository ++ ":" ++ tag
  | .Digest digest => r.repository ++ "@" ++ digest

/-- Spec-side description of the version-and-repository phase of parsing,
following the words of the specification: on the remainder after the registry
split, check for a tag via the last colon first; only when no colon is found,
check for a digest via the last at sign; when neither suffix is present,
default the version to Tag latest using the whole remainder as repository.
The emptiness validations are those the specification attaches to each
branch. -/
def parseRemainderC5 (registry rem : List Char) : Except String ImageRef :=
  if registry = [] then .error "image registry must be provided"
  else
    match rsplitOnceList ':' rem with
    | some (repository, tag) =>
      if repository = [] then .error "image repository must be provided"
      else if tag = [] then .error "image tag must be provided"
      else .ok ⟨String.mk registry, String.mk repository, .Tag (String.mk tag)⟩
    | none =>
      match rsplitOnceList '@' rem with
      | some (repository, digest) =>
        if repository = [] then .error "image repository must be provided"
        else if digest = [] then .error "image digest must be provided"
        else .ok ⟨String.mk registry, String.mk repository, .Digest (String.mk digest)⟩
      | none => .ok ⟨String.mk registry, String.mk rem, .Tag "latest"⟩

/-- Spec-side description of the whole parse, following the words of the
specification: split the input on the first slash, defaulting the registry to
docker.io when there is no slash, then proceed on the remainder. -/
def parseSpecC5 (s : List Char) : Except String ImageRef :=
  match splitOnceList '/' s with
  | none => parseRemainderC5 "docker.io".data s
  | some (registry, rest) => parseRemainderC5 registry rest

/-! ## Authentication (src/lib.rs) -/

/-- Authentication information for the OCI registry.  Embeds enum
`Authentication` of src/lib.rs. -/
inductive Authentication where
  | None
  | Basic (username password : String)
deriving DecidableEq, Repr

/-- Embeds `Authentication::new` from src/lib.rs: the four presence
combinations of the optional username and password. -/
def Authentication.new (username password : Option String) : Authentication :=
  match username, password with
  | .none, .none => .None
  | .some u, .some p => .Basic u p
  | .none, .some p => .Basic "" p
  | .some u, .none => .Basic u ""

/-- Rust debug formatting of a string: the quoted form used by the derived
Debug for String.  The escaping details are irrelevant to the theorems below;
only that the function depends on the username alone matters. -/
def rustDebugQuote (s : String) : String := "\"" ++ s ++ "\""

/-- Embeds the derived Display of `Authentication` (src/lib.rs): the Basic
variant renders as the username, a colon and four asterisks; the password is
never formatted. -/
def Authentication.displayStr : Authentication → String
  | .None => "None"
  | .Basic u _ => u ++ ":****"

/-- Embeds the derived Debug of `Authentication` (src/lib.rs): the Basic
variant renders as the word Basic, the debug-quoted username and an underscore
placeholder; the password is never formatted. -/
def Authentication.debugStr : Authentication → String
  | .None => "None"
  | .Basic u _ => "Basic(" ++ rustDebugQuote u ++ ", _)"

/-! ## OutputDir (src/lib.rs)

The filesystem is modelled abstractly: paths are lists of components, and a
`FileSystem` provides the two read-only queries the source uses, namely
`std::fs::canonicalize` (which fails for nonexistent or unresolvable paths)
and `Path::is_file`.  `OutputDir::from_str` performs no writes, so the model
needs no mutation operations.
-/

/-- A filesystem path, as a list of components. -/
abbrev FsPath := List String

/-- Read-only view of the filesystem used by `OutputDir::from_str`. -/
structure FileSystem where
  canonicalize : String → Option FsPath
  isFile : FsPath → Bool

/-- The output directory to which extracted container content is written.
Embeds struct `OutputDir` of src/lib.rs. -/
structure OutputDir where
  is_temporary : Bool
  path : FsPath
deriving DecidableEq, Repr

/-- Embeds `make_absolute` from src/lib.rs: canonicalize the path against the
working directory, wrapping failure with the context message of the source. -/
def makeAbsolute (fs : FileSystem) (path : String) : Except String FsPath :=
  match fs.canonicalize path with
  | .some p => .ok p
  | .none => .error "canonicalize path using working directory"

/-- Embeds `impl FromStr for OutputDir` from src/lib.rs, keeping the source
combinator chain: `make_absolute` then the is_file bail inside and_then, then
the map to an OutputDir with is_temporary false. -/
def OutputDir.fromStr (fs : FileSystem) (s : String) : Except String OutputDir :=
  (makeAbsolute fs s).bind
      (fun path =>
        if fs.isFile path then
          .error ("output path already exists and is a file: " ++ String.intercalate "/" path)
        else .ok path)
    |>.map (fun path => { is_temporary := false, path := path })

/-! ## Extract pipeline (src/cmd/extract.rs)

Layer descriptors, blob streams and the per-layer download are modelled as
data: a blob stream is the list of bytes it yields plus the optional content
length reported by the registry, and writing a file is recorded as a pair of
the destination path and the bytes written.
-/

/-- A layer descriptor from the manifest: the digest and the declared size.
Embeds the fields of `OciDescriptor` the source uses. -/
structure OciDescriptor where
  digest : String
  size : Int
deriving DecidableEq, Repr

/-- A sized blob stream, as returned by `pull_blob_stream`: the bytes of the
stream and the optional content length. -/
structure SizedStream where
  content_length : Option Nat
  stream : List Nat
deriving DecidableEq, Repr

/-- Models `digest.replace(a colon character, an underscore)` from
`download_layer`: every colon in the digest becomes an underscore. -/
def replaceColon (s : String) : String :=
  String.mk (s.data.map (fun c => if c = ':' then '_' else c))

/-- Embeds `download_layer` from src/cmd/extract.rs: derive the file name from
the digest with colons replaced by underscores, join it to the working
directory, and copy the whole blob stream into the file.  The returned pair is
the created file: its path and its contents. -/
def download_layer (working : FsPath) (layer : OciDescriptor) (blob : SizedStream) :
    FsPath × List Nat :=
  let name := replaceColon layer.digest
  let path := working ++ [name]
  (path, blob.stream)

/-- Embeds the task-count computation of `main` in src/cmd/extract.rs:
`let task_count = layers.len() * 2`. -/
def taskCount (layers : List OciDescriptor) : Nat := layers.length * 2

/-- Embeds the fan-out iteration of `main`: `layers.into_iter().zip(1..)`
pairs each layer, in manifest order, with its 1-based task index. -/
def taskAssignments (layers : List OciDescriptor) : List (OciDescriptor × Nat) :=
  layers.zip (List.range' 1 layers.length)

/-- The kind of progress indicator produced by `download_progress`: a
determinate byte-total bar or an indeterminate spinner. -/
inductive ProgressKind where
  | bar (total : Nat)
  | spinner
deriving DecidableEq, Repr

/-- A progress indicator: its kind and the task label set by set_prefix. -/
structure ProgressBarModel where
  kind : ProgressKind
  taskLabel : String
deriving DecidableEq, Repr

/-- True exactly for the determinate byte-total bar. -/
def ProgressBarModel.isDeterminate (b : ProgressBarModel) : Bool :=
  match b.kind with
  | .bar _ => true
  | .spinner => false

/-- Embeds `download_progress` from src/cmd/extract.rs: a byte-total bar when
the byte length is known, an indeterminate spinner otherwise; in both cases
the label set by set_prefix is the bracketed task over task_count. -/
def download_progress (task task_count : Nat) (bytes : Option Nat) : ProgressBarModel :=
  let bar : ProgressBarModel :=
    match bytes with
    | .some b => { kind := .bar b, taskLabel := "" }
    | .none => { kind := .spinner, taskLabel := "" }
  { bar with taskLabel := "[" ++ toString task ++ "/" ++ toString task_count ++ "]" }

/-- The files written by the spawned download tasks of `main`: one
`download_layer` write per manifest layer, into the working directory.  The
destination is the fresh temporary working directory created by
`TempDir::new()`; the resolved OutputDir of the options is bound as `_output`
in the source and never used, which this model makes explicit by taking and
ignoring it. -/
def extractWrites (_output : OutputDir) (working : FsPath)
    (layers : List (OciDescriptor × SizedStream)) : List (FsPath × List Nat) :=
  layers.map (fun lb => download_layer working lb.1 lb.2)

/-! ## The join loop of `main` (src/cmd/extract.rs)

The loop `while let Some(task) = tasks.join_next().await` receives task
results in completion order; each is unwrapped with the question-mark
operator, so the loop returns at the first error it observes.  The model takes
the completion-ordered list of task results; the disk state is threaded
through unchanged, since the loop body performs no filesystem operation.
Tasks still in the JoinSet when the loop returns early are aborted when the
set is dropped; `joinAwaited` counts how many results the loop consumed.
-/

/-- Embeds the join loop of `main`: consume completion-ordered results,
returning at the first error; the disk state passes through untouched. -/
def joinLoop (disk : List (FsPath × List Nat)) :
    List (Except String FsPath) → Except String Unit × List (FsPath × List Nat)
  | [] => (.ok (), disk)
  | .error e :: _ => (.error e, disk)
  | .ok _ :: rest => joinLoop disk rest

/-- Number of task results the join loop consumes before returning. -/
def joinAwaited : List (Except String FsPath) → Nat
  | [] => 0
  | .error _ :: _ => 1
  | .ok _ :: rest => 1 + joinAwaited rest

/-- Number of spawned tasks never awaited by the loop: these are the tasks
aborted when the JoinSet is dropped on the early return. -/
def abortedOnDrop (results : List (Except String FsPath)) : Nat :=
  results.length - joinAwaited results

/-! ## Helper lemmas on the splitting primitives -/

theorem splitOnceList_eq_none (sep : Char) (l : List Char) (h : sep ∉ l) :
    splitOnceList sep l = none := by
  induction l with
  | nil => rfl
  | cons c rest ih =>
    simp only [List.mem_cons, not_or] at h
    simp [splitOnceList, Ne.symm h.1, ih h.2]

theorem splitOnceList_first (sep : Char) (a b : List Char) (h : sep ∉ a) :
    splitOnceList sep (a ++ sep :: b) = some (a, b) := by
  induction a with
  | nil => simp [splitOnceList]
  | cons c rest ih =>
    simp only [List.mem_cons, not_or] at h
    simp [splitOnceList, Ne.symm h.1, ih h.2]

theorem rsplitOnceList_eq_none (sep : Char) (l : List Char) (h : sep ∉ l) :
    rsplitOnceList sep l = none := by
  unfold rsplitOnceList
  rw [splitOnceList_eq_none sep l.reverse (by simpa using h)]

theorem rsplitOnceList_last (sep : Char) (a b : List Char) (h : sep ∉ b) :
    rsplitOnceList sep (a ++ sep :: b) = some (a, b) := by
  unfold rsplitOnceList
  have hrev : (a ++ sep :: b).reverse = b.reverse ++ sep :: a.reverse := by simp
  rw [hrev, splitOnceList_first sep _ _ (by simpa using h)]
  simp

theorem string_data_mk (l : List Char) : (String.mk l).data = l := rfl

theorem string_data_append (a b : String) : (a ++ b).data = a.data ++ b.data := rfl

/-- Shared bridge lemma: the source parser agrees with the spec-side
description on every character list. -/
theorem fromStrList_eq_parseSpecC5 (s : List Char) :
    ImageRef.fromStrList s = parseSpecC5 s := by
  unfold ImageRef.fromStrList parseSpecC5 parseRemainderC5
  cases h : splitOnceList '/' s <;> simp [h]

theorem fromStrList_no_slash (s : List Char) (h : '/' ∉ s) :
    ImageRef.fromStrList s = parseRemainderC5 "docker.io".data s := by
  rw [fromStrList_eq_parseSpecC5]
  unfold parseSpecC5
  rw [splitOnceList_eq_none '/' s h]

theorem fromStrList_slash (a b : List Char) (h : '/' ∉ a) :
    ImageRef.fromStrList (a ++ '/' :: b) = parseRemainderC5 a b := by
  rw [fromStrList_eq_parseSpecC5]
  unfold parseSpecC5
  rw [splitOnceList_first '/' a b h]

theorem parseRemainderC5_plain (reg rem : List Char) (hreg : reg ≠ [])
    (hc : ':' ∉ rem) (ha : '@' ∉ rem) :
    parseRemainderC5 reg rem = .ok ⟨String.mk reg, String.mk rem, .Tag "latest"⟩ := by
  simp only [parseRemainderC5, rsplitOnceList_eq_none ':' rem hc,
    rsplitOnceList_eq_none '@' rem ha, if_neg hreg]

theorem parseRemainderC5_tag (reg a b : List Char) (hreg : reg ≠ [])
    (hb : ':' ∉ b) (hane : a ≠ []) (hbne : b ≠ []) :
    parseRemainderC5 reg (a ++ ':' :: b) = .ok ⟨String.mk reg, String.mk a, .Tag (String.mk b)⟩ := by
  simp only [parseRemainderC5, rsplitOnceList_last ':' a b hb, if_neg hreg, if_neg hane,
    if_neg hbne]

theorem parseRemainderC5_digest (reg a b : List Char) (hreg : reg ≠ [])
    (hca : ':' ∉ a) (hcb : ':' ∉ b) (hab : '@' ∉ b) (hane : a ≠ []) (hbne : b ≠ []) :
    parseRemainderC5 reg (a ++ '@' :: b) =
      .ok ⟨String.mk reg, String.mk a, .Digest (String.mk b)⟩ := by
  have hnc : (':' : Char) ∉ a ++ '@' :: b := by
    simp only [List.mem_append, List.mem_cons, not_or]
    exact ⟨hca, by decide, hcb⟩
  simp only [parseRemainderC5, rsplitOnceList_eq_none ':' _ hnc,
    rsplitOnceList_last '@' a b hab, if_neg hreg, if_neg hane, if_neg hbne]

theorem display_tag_data (reg repoStr tagStr : String) :
    (ImageRef.display ⟨reg, repoStr, .Tag tagStr⟩).data = repoStr.data ++ ':' :: tagStr.data := by
  show (repoStr ++ ":" ++ tagStr).data = repoStr.data ++ ':' :: tagStr.data
  rw [string_data_append, string_data_append]
  simp

theorem display_digest_data (reg repoStr digestStr : String) :
    (ImageRef.display ⟨reg, repoStr, .Digest digestStr⟩).data =
      repoStr.data ++ '@' :: digestStr.data := by
  show (repoStr ++ "@" ++ digestStr).data = repoStr.data ++ '@' :: digestStr.data
  rw [string_data_append, string_data_append]
  simp

/-! ## Claim theorems -/

/-- Claim C1 (code bug evaluation): on a concrete one-layer manifest, the
extract operation writes the layer file, named by the digest with the colon
replaced by an underscore and holding exactly the stream bytes, into the
temporary working directory; no written path lies under the resolved
OutputDir, which the source binds as an unused variable.  The claim states the
files appear in the destination resolved by OutputLocation, which matches the
doc comment of the output option in the source but not the code. -/
theorem extract_writes_working_dir_not_output :
    extractWrites { is_temporary := false, path := ["home", "user", "out"] } ["tmp", "wrk"]
        [(⟨"sha256:abc", 3⟩, ⟨some 3, [1, 2, 3]⟩)] =
      [(["tmp", "wrk", "sha256_abc"], [1, 2, 3])] ∧
    (extractWrites { is_temporary := false, path := ["home", "user", "out"] } ["tmp", "wrk"]
        [(⟨"sha256:abc", 3⟩, ⟨some 3, [1, 2, 3]⟩)]).all
      (fun f => !(["home", "user", "out"].isPrefixOf f.1)) = true :=
  ⟨rfl, rfl⟩

/-- Claim C2 (counterexample): with two spawned tasks whose first
completion-ordered result is an error, the join loop consumes only one of the
two results before returning the error, so it does not wait for every spawned
task; the one task never awaited is aborted when the JoinSet is dropped.  This
refutes the stated claim that the fetch waits for every spawned task to finish
without proactively cancelling in-flight siblings. -/
theorem join_aborts_siblings_on_first_error :
    joinLoop [(["tmp", "wrk", "sha256_abc"], [1, 2, 3])]
        [.error "download blob", .ok ["tmp", "wrk", "sha256_def"]] =
      (.error "download blob", [(["tmp", "wrk", "sha256_abc"], [1, 2, 3])]) ∧
    joinAwaited [.error "download blob", .ok ["tmp", "wrk", "sha256_def"]] = 1 ∧
    ([Except.error "download blob", Except.ok ["tmp", "wrk", "sha256_def"]] :
        List (Except String FsPath)).length = 2 ∧
    abortedOnDrop [.error "download blob", .ok ["tmp", "wrk", "sha256_def"]] = 1 :=
  ⟨rfl, rfl, rfl, rfl⟩

/-- Claim C2 (amended): when the completion-ordered results are some
successes followed by the first failure, the join loop surfaces that first
observed failure as the overall result, consumes exactly the results up to and
including it (later tasks are not awaited; they are aborted when the JoinSet
is dropped), and leaves the disk state untouched: files already written by
completed tasks are not rolled back. -/
theorem join_surfaces_first_error_keeps_disk (disk : List (FsPath × List Nat))
    (pre post : List (Except String FsPath)) (e : String)
    (hpre : ∀ r ∈ pre, ∃ p, r = .ok p) :
    joinLoop disk (pre ++ .error e :: post) = (.error e, disk) ∧
    joinAwaited (pre ++ .error e :: post) = pre.length + 1 := by
  induction pre with
  | nil => exact ⟨rfl, rfl⟩
  | cons r rest ih =>
    obtain ⟨p, rfl⟩ := hpre r (List.mem_cons_self r rest)
    have ihh := ih (fun r hr => hpre r (List.mem_cons_of_mem _ hr))
    refine ⟨?_, ?_⟩
    · simpa [joinLoop] using ihh.1
    · have hstep : joinAwaited (Except.ok p :: (rest ++ Except.error e :: post)) =
          1 + joinAwaited (rest ++ Except.error e :: post) := rfl
      rw [List.cons_append, hstep, ihh.2, List.length_cons]
      omega

/-- Witness for the amended Claim C2 theorem: three tasks, with one success
completing before the failure and one task after it; the failure is surfaced,
two of three results are consumed, and the disk is unchanged. -/
theorem join_surfaces_first_error_keeps_disk_witness :
    joinLoop [(["d"], [7])] [.ok ["f"], .error "download blob", .ok ["g"]] =
      (.error "download blob", [(["d"], [7])]) ∧
    joinAwaited [.ok ["f"], .error "download blob", .ok ["g"]] = 2 := by
  have h := join_surfaces_first_error_keeps_disk [(["d"], [7])] [.ok ["f"]] [.ok ["g"]]
      "download blob" (by intro r hr; rw [List.mem_singleton] at hr; exact ⟨["f"], hr⟩)
  simpa using h

/-- Claim C3 (counterexample): parsing the input with explicit registry
example.com succeeds, but formatting the result yields a string without the
registry, and re-parsing that string gives a reference whose registry is
docker.io, a different ImageRef.  The parse-then-format round trip therefore
does not yield an equivalent canonical reference for explicit non-default
registries. -/
theorem parse_display_drops_registry :
    ImageRef.fromStr "example.com/repo" = .ok ⟨"example.com", "repo", .Tag "latest"⟩ ∧
    (ImageRef.fromStr "example.com/repo").map ImageRef.display = .ok "repo:latest" ∧
    ImageRef.fromStr "repo:latest" = .ok ⟨"docker.io", "repo", .Tag "latest"⟩ ∧
    (ImageRef.mk "docker.io" "repo" (.Tag "latest")) ≠
      (ImageRef.mk "example.com" "repo" (.Tag "latest")) := by
  refine ⟨rfl, rfl, rfl, ?_⟩
  decide

/-- Claim C3 (amended): for well-formed component strings, the six input
forms all parse with registry defaulted to docker.io and tag defaulted to
latest when omitted, and for each produced reference the formatted string
re-parses to the very same ImageRef; the explicit-registry forms are covered
with registry docker.io, since the Display implementation omits the registry
and a round trip therefore preserves only the default registry. -/
theorem roundtrip_with_default_registry
    (repo tag digest : List Char)
    (hr0 : repo ≠ []) (hr1 : '/' ∉ repo) (hr2 : ':' ∉ repo) (hr3 : '@' ∉ repo)
    (ht0 : tag ≠ []) (ht1 : '/' ∉ tag) (ht2 : ':' ∉ tag)
    (hd0 : digest ≠ []) (hd1 : '/' ∉ digest) (hd2 : ':' ∉ digest) (hd3 : '@' ∉ digest) :
    (ImageRef.fromStrList repo = .ok ⟨"docker.io", String.mk repo, .Tag "latest"⟩ ∧
      ImageRef.fromStr (ImageRef.display ⟨"docker.io", String.mk repo, .Tag "latest"⟩) =
        .ok ⟨"docker.io", String.mk repo, .Tag "latest"⟩) ∧
    (ImageRef.fromStrList ("docker.io".data ++ '/' :: repo) =
      .ok ⟨"docker.io", String.mk repo, .Tag "latest"⟩) ∧
    (ImageRef.fromStrList (repo ++ ':' :: tag) =
        .ok ⟨"docker.io", String.mk repo, .Tag (String.mk tag)⟩ ∧
      ImageRef.fromStr (ImageRef.display ⟨"docker.io", String.mk repo, .Tag (String.mk tag)⟩) =
        .ok ⟨"docker.io", String.mk repo, .Tag (String.mk tag)⟩) ∧
    (ImageRef.fromStrList ("docker.io".data ++ '/' :: (repo ++ ':' :: tag)) =
      .ok ⟨"docker.io", String.mk repo, .Tag (String.mk tag)⟩) ∧
    (ImageRef.fromStrList (repo ++ '@' :: digest) =
        .ok ⟨"docker.io", String.mk repo, .Digest (String.mk digest)⟩ ∧
      ImageRef.fromStr (ImageRef.display ⟨"docker.io", String.mk repo, .Digest (String.mk digest)⟩) =
        .ok ⟨"docker.io", String.mk repo, .Digest (String.mk digest)⟩) ∧
    (ImageRef.fromStrList ("docker.io".data ++ '/' :: (repo ++ '@' :: digest)) =
      .ok ⟨"docker.io", String.mk repo, .Digest (String.mk digest)⟩) := by
  have hdio : ('/' : Char) ∉ "docker.io".data := by decide
  have hdione : ("docker.io".data : List Char) ≠ [] := by decide
  have hlat0 : ("latest".data : List Char) ≠ [] := by decide
  have hlat2 : (':' : Char) ∉ "latest".data := by decide
  have hns_tag : ('/' : Char) ∉ repo ++ ':' :: tag := by
    simp only [List.mem_append, List.mem_cons, not_or]
    exact ⟨hr1, by decide, ht1⟩
  have hns_dig : ('/' : Char) ∉ repo ++ '@' :: digest := by
    simp only [List.mem_append, List.mem_cons, not_or]
    exact ⟨hr1, by decide, hd1⟩
  have hns_lat : ('/' : Char) ∉ repo ++ ':' :: "latest".data := by
    simp only [List.mem_append, List.mem_cons, not_or]
    exact ⟨hr1, by decide, by decide⟩
  have hparse_plain : ImageRef.fromStrList repo =
      .ok ⟨"docker.io", String.mk repo, .Tag "latest"⟩ := by
    rw [fromStrList_no_slash repo hr1, parseRemainderC5_plain _ _ hdione hr2 hr3]
  have hparse_tag : ImageRef.fromStrList (repo ++ ':' :: tag) =
      .ok ⟨"docker.io", String.mk repo, .Tag (String.mk tag)⟩ := by
    rw [fromStrList_no_slash _ hns_tag, parseRemainderC5_tag _ _ _ hdione ht2 hr0 ht0]
  have hparse_dig : ImageRef.fromStrList (repo ++ '@' :: digest) =
      .ok ⟨"docker.io", String.mk repo, .Digest (String.mk digest)⟩ := by
    rw [fromStrList_no_slash _ hns_dig,
      parseRemainderC5_digest _ _ _ hdione hr2 hd2 hd3 hr0 hd0]
  have hparse_lat : ImageRef.fromStrList (repo ++ ':' :: "latest".data) =
      .ok ⟨"docker.io", String.mk repo, .Tag (String.mk "latest".data)⟩ := by
    rw [fromStrList_no_slash _ hns_lat, parseRemainderC5_tag _ _ _ hdione hlat2 hr0 hlat0]
  have hrt1 : ImageRef.fromStr (ImageRef.display ⟨"docker.io", String.mk repo, .Tag "latest"⟩) =
      .ok ⟨"docker.io", String.mk repo, .Tag "latest"⟩ := by
    unfold ImageRef.fromStr
    rw [display_tag_data]
    simp only [string_data_mk]
    rw [hparse_lat]
  have hrt3 : ImageRef.fromStr
      (ImageRef.display ⟨"docker.io", String.mk repo, .Tag (String.mk tag)⟩) =
      .ok ⟨"docker.io", String.mk repo, .Tag (String.mk tag)⟩ := by
    unfold ImageRef.fromStr
    rw [display_tag_data]
    simp only [string_data_mk]
    exact hparse_tag
  have hrt5 : ImageRef.fromStr
      (ImageRef.display ⟨"docker.io", String.mk repo, .Digest (String.mk digest)⟩) =
      .ok ⟨"docker.io", String.mk repo, .Digest (String.mk digest)⟩ := by
    unfold ImageRef.fromStr
    rw [display_digest_data]
    simp only [string_data_mk]
    exact hparse_dig
  have hparse2 : ImageRef.fromStrList ("docker.io".data ++ '/' :: repo) =
      .ok ⟨"docker.io", String.mk repo, .Tag "latest"⟩ := by
    rw [fromStrList_slash _ _ hdio, parseRemainderC5_plain _ _ hdione hr2 hr3]
  have hparse4 : ImageRef.fromStrList ("docker.io".data ++ '/' :: (repo ++ ':' :: tag)) =
      .ok ⟨"docker.io", String.mk repo, .Tag (String.mk tag)⟩ := by
    rw [fromStrList_slash _ _ hdio, parseRemainderC5_tag _ _ _ hdione ht2 hr0 ht0]
  have hparse6 : ImageRef.fromStrList ("docker.io".data ++ '/' :: (repo ++ '@' :: digest)) =
      .ok ⟨"docker.io", String.mk repo, .Digest (String.mk digest)⟩ := by
    rw [fromStrList_slash _ _ hdio,
      parseRemainderC5_digest _ _ _ hdione hr2 hd2 hd3 hr0 hd0]
  exact ⟨⟨hparse_plain, hrt1⟩, hparse2, ⟨hparse_tag, hrt3⟩, hparse4, ⟨hparse_dig, hrt5⟩, hparse6⟩

/-- Witness for the amended Claim C3 theorem: the plain repository form at a
concrete input, with all side conditions discharged by decide. -/
theorem roundtrip_with_default_registry_witness :
    ImageRef.fromStrList "repo".data = .ok ⟨"docker.io", "repo", .Tag "latest"⟩ ∧
    ImageRef.fromStr (ImageRef.display ⟨"docker.io", "repo", .Tag "latest"⟩) =
      .ok ⟨"docker.io", "repo", .Tag "latest"⟩ := by
  have h := roundtrip_with_default_registry "repo".data "tag".data "sha256abc".data
    (by decide) (by decide) (by decide) (by decide) (by decide) (by decide) (by decide)
    (by decide) (by decide) (by decide) (by decide)
  exact h.1

/-- Claim C4 (code bug evaluation): of the five inputs the claim says are
rejected, four fail with their distinct validation errors, but the empty
string is accepted and parses to a reference with registry docker.io, an
empty repository and tag latest, because the default branch of the parser
performs no empty-repository check. -/
theorem parse_empty_accepted_others_rejected :
    ImageRef.fromStr "" = .ok ⟨"docker.io", "", .Tag "latest"⟩ ∧
    ImageRef.fromStr "/" = .error "image registry must be provided" ∧
    ImageRef.fromStr "repo:" = .error "image tag must be provided" ∧
    ImageRef.fromStr "repo@" = .error "image digest must be provided" ∧
    ImageRef.fromStr ":tag" = .error "image repository must be provided" :=
  ⟨rfl, rfl, rfl, rfl, rfl⟩

/-- Claim C5: the source parser agrees, on every input string, with the
spec-side algorithm that splits on the first slash with registry defaulted to
docker.io, checks for a tag via the last colon before checking for a digest
via the last at sign, and defaults the version to Tag latest with the whole
remainder as repository when neither suffix is present. -/
theorem fromStr_follows_spec_algorithm (s : String) :
    ImageRef.fromStr s = parseSpecC5 s.data :=
  fromStrList_eq_parseSpecC5 s.data

/-- Claim C6: authentication selection is total over the four presence
combinations of username and password, mapping both absent to None, both
present to Basic of the pair, and a single present value to Basic with the
empty string for the missing half. -/
theorem authentication_new_cases (u p : String) :
    Authentication.new .none .none = .None ∧
    Authentication.new (.some u) (.some p) = .Basic u p ∧
    Authentication.new (.some u) .none = .Basic u "" ∧
    Authentication.new .none (.some p) = .Basic "" p :=
  ⟨rfl, rfl, rfl, rfl⟩

/-- Claim C7: resolving a user-supplied output path fails exactly when
canonicalization fails or the canonicalized path is a regular file; in every
other case it succeeds with is_temporary false and the canonicalized path.
The embedding takes the filesystem as a read-only record, mirroring that the
source performs only the canonicalize and is_file queries and no mutation on
any path. -/
theorem outputdir_resolution_characterization (fs : FileSystem) (s : String) :
    OutputDir.fromStr fs s =
      (match fs.canonicalize s with
       | .none => .error "canonicalize path using working directory"
       | .some p =>
         if fs.isFile p then
           .error ("output path already exists and is a file: " ++ String.intercalate "/" p)
         else .ok { is_temporary := false, path := p }) := by
  cases h : fs.canonicalize s with
  | none => simp [OutputDir.fromStr, makeAbsolute, h, Except.map, Except.bind]
  | some p =>
    cases hf : fs.isFile p <;>
      simp [OutputDir.fromStr, makeAbsolute, h, hf, Except.map, Except.bind]

/-- Claim C8: the task count used in progress display is twice the number of
layers, and the layer at position i of the manifest is paired with the
1-based task index i plus one; the assignment is a pure function of the
manifest order, hence stable across runs. -/
theorem task_count_and_ordering (layers : List OciDescriptor) (i : Nat) (h : i < layers.length) :
    taskCount layers = 2 * layers.length ∧
    (taskAssignments layers).length = layers.length ∧
    (taskAssignments layers)[i]? = some (layers[i], i + 1) := by
  have hz : i < (List.range' 1 layers.length).length := by simpa using h
  refine ⟨Nat.mul_comm _ _, by simp [taskAssignments], ?_⟩
  unfold taskAssignments
  rw [List.getElem?_zip_eq_some]
  refine ⟨List.getElem?_eq_getElem h, ?_⟩
  rw [List.getElem?_eq_getElem hz]
  simp [List.getElem_range', Nat.add_comm]

/-- Witness for the Claim C8 theorem: a two-layer manifest, with the second
layer receiving task index two out of a task count of four. -/
theorem task_count_and_ordering_witness :
    taskCount [⟨"sha256:a", 1⟩, ⟨"sha256:b", 2⟩] =
      2 * ([⟨"sha256:a", 1⟩, ⟨"sha256:b", 2⟩] : List OciDescriptor).length ∧
    (taskAssignments [⟨"sha256:a", 1⟩, ⟨"sha256:b", 2⟩]).length = 2 ∧
    (taskAssignments [⟨"sha256:a", 1⟩, ⟨"sha256:b", 2⟩])[1]? = some (⟨"sha256:b", 2⟩, 2) := by
  have h := task_count_and_ordering [⟨"sha256:a", 1⟩, ⟨"sha256:b", 2⟩] 1 (by decide)
  simpa using h

/-- Claim C9: the progress-indicator constructor yields a determinate
byte-total bar exactly when the byte length is known and an indeterminate
spinner exactly when it is unknown, for every task index and task count. -/
theorem download_progress_determinate_iff_known (task tc : Nat) (bytes : Option Nat) :
    (download_progress task tc bytes).isDeterminate = bytes.isSome ∧
    ((download_progress task tc bytes).kind = .spinner ↔ bytes = .none) := by
  cases bytes <;> simp [download_progress, ProgressBarModel.isDeterminate]

/-- Claim C10: for Basic credentials sharing a username, the Display and
Debug renderings coincide whatever the passwords are, because both render the
username with a fixed mask and never format the password; the rendered output
is therefore independent of the password. -/
theorem authentication_rendering_masks_password (u p₁ p₂ : String) :
    Authentication.displayStr (.Basic u p₁) = Authentication.displayStr (.Basic u p₂) ∧
    Authentication.debugStr (.Basic u p₁) = Authentication.debugStr (.Basic u p₂) ∧
    Authentication.displayStr (.Basic u p₁) = u ++ ":****" ∧
    Authentication.debugStr (.Basic u p₁) = "Basic(" ++ rustDebugQuote u ++ ", _)" :=
  ⟨rfl, rfl, rfl, rfl⟩

end Boxpop
